import Mathlib

/-!
Verification of the geometry core of the VoucherAnalysis repository
(`src/lib/geo.py`): point-on-segment and ray-casting containment tests,
polygon-with-holes containment, GeoJSON-style geometry extraction,
bounding-box computation, and the linear-scan feature index.

Modelling choices, stated once:

* Python floats are modelled as exact rationals (`ℚ`).  Every number the
  source manipulates (coordinates, the `1e-9` on-segment tolerance, the
  `1e-12` ray-casting denominator guard) is an exact rational, so all
  arithmetic in the source is exact rational arithmetic here.
* `float("inf")` / `float("-inf")`, used only by `polygon_bbox` and the
  bounding-box comparison in `lookup`, are modelled by the extended
  rationals `XQ` below, whose comparison mirrors the IEEE order on
  non-NaN values.
* A raised Python exception is modelled by `Option`: `none` is "raises",
  `some v` is "returns v".  The source never catches exceptions, so which
  exception is raised (TypeError vs ValueError) is not tracked.
* Geometry dictionaries are modelled by `Geometry` (the two fields the
  source reads) and nested coordinate values by `JVal`.  `JVal.other`
  stands for any value that is neither a number nor a list (e.g. None or
  a non-numeric string): `float` rejects it and iterating or unpacking it
  fails.  A numeric string, which `float` accepts, is modelled as
  `JVal.num`.
* The source's `Ring` type alias is rendered `GeoRing` (`Ring` is taken
  by Mathlib); all other names follow the source.
-/

abbrev Point := ℚ × ℚ

abbrev GeoRing := List Point

abbrev Polygon := List GeoRing

/-- Embeds `_point_on_segment` of src/lib/geo.py: `point` lies on the closed
segment `[a, b]` up to the cross-product tolerance `epsilon` (source default
`1e-9`). -/
def point_on_segment (point a b : Point) (epsilon : ℚ := 1/1000000000) : Bool :=
  let x := point.1; let y := point.2
  let x1 := a.1; let y1 := a.2
  let x2 := b.1; let y2 := b.2
  let cross := (x - x1) * (y2 - y1) - (y - y1) * (x2 - x1)
  if |cross| > epsilon then false
  else
    let dot := (x - x1) * (x2 - x1) + (y - y1) * (y2 - y1)
    if dot < 0 then false
    else
      let squared_len := (x2 - x1) ^ 2 + (y2 - y1) ^ 2
      if dot > squared_len then false
      else true

/-- The edge list `[(ring[i], ring[(i+1) % len(ring)]) for i in range(len(ring))]`
walked by the loop of `_point_in_ring`. -/
def ringEdges : GeoRing → List (Point × Point)
  | [] => []
  | p0 :: rest => (p0 :: rest).zip (rest ++ [p0])

/-- The body of the loop of `_point_in_ring`: an early `return True` on an
on-segment hit, otherwise the ray-casting parity toggle.  The source guards
the toggle with `(y1 > y) != (y2 > y)`; here the branch order is flipped so
the guard reads `(y1 > y) ↔ (y2 > y)` for "no crossing".  The crossing
x-coordinate divides by `y2 - y1 + 1e-12` exactly as the source does. -/
def castLoop (point : Point) (inside : Bool) : List (Point × Point) → Bool
  | [] => inside
  | (a, b) :: rest =>
    if point_on_segment point a b then true
    else
      let x := point.1; let y := point.2
      let x1 := a.1; let y1 := a.2
      let x2 := b.1; let y2 := b.2
      if (y1 > y) ↔ (y2 > y) then castLoop point inside rest
      else
        let x_at_y := (x2 - x1) * (y - y1) / (y2 - y1 + 1/1000000000000) + x1
        if x < x_at_y then castLoop point (!inside) rest
        else castLoop point inside rest

/-- Embeds `_point_in_ring` of src/lib/geo.py: rings with fewer than 3 points
contain nothing; otherwise the ray-casting loop over the wrap-around edges. -/
def point_in_ring (point : Point) (ring : GeoRing) : Bool :=
  if ring.length < 3 then false
  else castLoop point false (ringEdges ring)

/-- Embeds `point_in_polygon` of src/lib/geo.py: an empty polygon contains
nothing; otherwise the point must be in the outer ring (`polygon[0]`) and in
none of the hole rings (`polygon[1:]`). -/
def point_in_polygon (point : Point) (polygon : Polygon) : Bool :=
  match polygon with
  | [] => false
  | outer :: holes =>
    if ! point_in_ring point outer then false
    else if holes.any (fun hole => point_in_ring point hole) then false
    else true

/-- A nested coordinate value as the source sees it: a number, a list, or
anything else (`other`: a value `float` rejects and iteration/unpacking
rejects, e.g. None or a non-numeric string). -/
inductive JVal where
  | num : ℚ → JVal
  | arr : List JVal → JVal
  | other : JVal

/-- Python's `float(v)` on a coordinate component: numbers convert, lists and
`other` values raise. -/
def pyFloat : JVal → Option ℚ
  | .num q => some q
  | _ => none

/-- One step of the comprehension `(float(x), float(y)) for x, y in ring`:
the entry must unpack into exactly two components (otherwise `for x, y in`
raises) and both must convert with `float`. -/
def convEntry : JVal → Option Point
  | .arr [xv, yv] =>
    match pyFloat xv, pyFloat yv with
    | some x, some y => some (x, y)
    | _, _ => none
  | _ => none

/-- The comprehension over one ring's entries, left to right; the first
raising entry aborts the whole conversion. -/
def convEntries : List JVal → Option GeoRing
  | [] => some []
  | e :: rest => do
    let p ← convEntry e
    let ps ← convEntries rest
    pure (p :: ps)

/-- One ring of a `coordinates` array: iterating a non-list raises. -/
def convRing : JVal → Option GeoRing
  | .arr entries => convEntries entries
  | _ => none

/-- The comprehension `[... for ring in coords]` over a polygon's rings. -/
def convRings : List JVal → Option Polygon
  | [] => some []
  | r :: rest => do
    let ring ← convRing r
    let rings ← convRings rest
    pure (ring :: rings)

/-- One polygon of a MultiPolygon's `coordinates` (or the whole `coordinates`
of a Polygon): a list of rings. -/
def convPolygon : JVal → Option Polygon
  | .arr rings => convRings rings
  | _ => none

/-- The loop `for polygon in coords: polygons.append(...)` of the
MultiPolygon branch. -/
def convPolygons : List JVal → Option (List Polygon)
  | [] => some []
  | p :: rest => do
    let polygon ← convPolygon p
    let polygons ← convPolygons rest
    pure (polygon :: polygons)

/-- The two fields of a geometry dictionary that `extract_polygons` reads.
`type := none` models a missing `type` key (`geometry.get("type")` is None);
a non-string `type` value behaves like a string different from `"Polygon"`
and `"MultiPolygon"`.  `coordinates := none` models a missing (or None)
`coordinates` key. -/
structure Geometry where
  type : Option String
  coordinates : Option JVal

/-- Embeds `extract_polygons` of src/lib/geo.py.  `if not geom_type or coords
is None: return []` is the first two match arms plus the empty-string test;
the Polygon branch wraps one converted polygon in a singleton list; the
MultiPolygon branch converts each polygon of `coords`; any other type yields
the empty list. -/
def extract_polygons (geometry : Geometry) : Option (List Polygon) :=
  match geometry.type, geometry.coordinates with
  | none, _ => some []
  | some _, none => some []
  | some t, some coords =>
    if t = "" then some []
    else if t = "Polygon" then (convPolygon coords).map (fun polygon => [polygon])
    else if t = "MultiPolygon" then
      match coords with
      | .arr polys => convPolygons polys
      | _ => none
    else some []

/-- An extended rational: `float("-inf")`, a finite value, `float("inf")`. -/
inductive XQ where
  | negInf : XQ
  | fin : ℚ → XQ
  | posInf : XQ
deriving DecidableEq

/-- The `<` comparison on extended rationals, matching the IEEE `<` on
non-NaN floats that the source's `min`, `max` and bounding-box tests use. -/
def XQ.blt : XQ → XQ → Bool
  | .negInf, .negInf => false
  | .negInf, _ => true
  | _, .negInf => false
  | .posInf, _ => false
  | .fin _, .posInf => true
  | .fin a, .fin b => decide (a < b)

/-- Python's builtin `min(a, b)`: the second argument replaces the first
exactly when it compares strictly smaller. -/
def XQ.min (a b : XQ) : XQ := if XQ.blt b a then b else a

/-- Python's builtin `max(a, b)`: the second argument replaces the first
exactly when it compares strictly greater. -/
def XQ.max (a b : XQ) : XQ := if XQ.blt a b then b else a

/-- `q < v` for a finite query coordinate against a bounding-box value. -/
def XQ.qlt (q : ℚ) (v : XQ) : Bool := XQ.blt (.fin q) v

/-- `q > v` for a finite query coordinate against a bounding-box value. -/
def XQ.qgt (q : ℚ) (v : XQ) : Bool := XQ.blt v (.fin q)

/-- The body of the triple loop of `polygon_bbox`: update the running
`(min_x, min_y, max_x, max_y)` with one point. -/
def bboxStep (acc : XQ × XQ × XQ × XQ) (pt : Point) : XQ × XQ × XQ × XQ :=
  (XQ.min acc.1 (.fin pt.1), XQ.min acc.2.1 (.fin pt.2),
   XQ.max acc.2.2.1 (.fin pt.1), XQ.max acc.2.2.2 (.fin pt.2))

/-- Embeds `polygon_bbox` of src/lib/geo.py: a fold of `bboxStep` over every
point of every ring of every polygon, starting from
`(float("inf"), float("inf"), float("-inf"), float("-inf"))`. -/
def polygon_bbox (polygons : List Polygon) : XQ × XQ × XQ × XQ :=
  polygons.foldl
    (fun acc polygon => polygon.foldl (fun acc2 ring => ring.foldl bboxStep acc2) acc)
    (.posInf, .posInf, .negInf, .negInf)

/-- The feature's attribute mapping: an association-list stand-in for the
`properties` dict (the source only stores and returns it). -/
abbrev Props := List (String × String)

/-- Embeds the `GeoFeature` dataclass of src/lib/geo.py. -/
structure GeoFeature where
  bbox : XQ × XQ × XQ × XQ
  polygons : List Polygon
  properties : Props
deriving DecidableEq

/-- One raw input feature record: the `geometry` and `properties` fields the
index constructor reads (`none` models a missing or None field). -/
structure FeatureRec where
  geometry : Option Geometry
  properties : Option Props

/-- `feature.get("geometry") or {}`: a missing (or falsy) geometry is
replaced by the empty dictionary. -/
def effGeometry (feature : FeatureRec) : Geometry :=
  feature.geometry.getD ⟨none, none⟩

/-- Embeds the loop of `GeoFeatureIndex.__init__` of src/lib/geo.py: for each
record, extract its polygons (a raised extraction error aborts the whole
construction, since the source catches nothing); skip the record when
extraction yields no polygons; otherwise store its bounding box, polygons and
properties (default `{}`), preserving input order. -/
def buildFeatures : List FeatureRec → Option (List GeoFeature)
  | [] => some []
  | feature :: rest => do
    let polygons ← extract_polygons (effGeometry feature)
    let tail ← buildFeatures rest
    if polygons.isEmpty then pure tail
    else pure (GeoFeature.mk (polygon_bbox polygons) polygons
      (feature.properties.getD []) :: tail)

/-- The `GeoFeatureIndex` class: its one piece of state. -/
structure GeoFeatureIndex where
  features : List GeoFeature
deriving DecidableEq

/-- The constructor `GeoFeatureIndex(features)`. -/
def GeoFeatureIndex.build (features : List FeatureRec) : Option GeoFeatureIndex :=
  (buildFeatures features).map GeoFeatureIndex.mk

/-- Embeds the loop of `GeoFeatureIndex.lookup` of src/lib/geo.py: scan
features in insertion order; skip a feature when the query point falls
outside its bounding box (`x < min_x or x > max_x or y < min_y or y > max_y`);
otherwise return its properties as soon as one of its polygons contains the
point; fall through to the next feature otherwise. -/
def lookupLoop (point : Point) : List GeoFeature → Option Props
  | [] => none
  | feature :: rest =>
    let x := point.1; let y := point.2
    let min_x := feature.bbox.1; let min_y := feature.bbox.2.1
    let max_x := feature.bbox.2.2.1; let max_y := feature.bbox.2.2.2
    if XQ.qlt x min_x || XQ.qgt x max_x || XQ.qlt y min_y || XQ.qgt y max_y then
      lookupLoop point rest
    else if feature.polygons.any (fun polygon => point_in_polygon point polygon) then
      some feature.properties
    else lookupLoop point rest

/-- The method `GeoFeatureIndex.lookup(point)`. -/
def GeoFeatureIndex.lookup (index : GeoFeatureIndex) (point : Point) : Option Props :=
  lookupLoop point index.features

/-- The combined test lookup applies to one feature: the bounding box does
not reject the point, and some polygon of the feature contains it. -/
def featureMatches (point : Point) (feature : GeoFeature) : Bool :=
  !(XQ.qlt point.1 feature.bbox.1 || XQ.qgt point.1 feature.bbox.2.2.1 ||
    XQ.qlt point.2 feature.bbox.2.1 || XQ.qgt point.2 feature.bbox.2.2.2) &&
  feature.polygons.any (fun polygon => point_in_polygon point polygon)

/-- Claim C5: for the square ring [(0,0),(4,0),(4,4),(0,4)] the containment
test accepts the vertex (0,0), the mid-edge point (2,0) and the interior
point (2,2), and rejects (5,5) and (-1,2); boundary points count as inside. -/
theorem C5_square_ring_boundary :
    point_in_ring (0, 0) [(0,0),(4,0),(4,4),(0,4)] = true ∧
    point_in_ring (2, 0) [(0,0),(4,0),(4,4),(0,4)] = true ∧
    point_in_ring (2, 2) [(0,0),(4,0),(4,4),(0,4)] = true ∧
    point_in_ring (5, 5) [(0,0),(4,0),(4,4),(0,4)] = false ∧
    point_in_ring (-1, 2) [(0,0),(4,0),(4,4),(0,4)] = false := by
  refine ⟨?_, ?_, ?_, ?_, ?_⟩ <;>
    norm_num [point_in_ring, castLoop, ringEdges, point_on_segment]

/-- Claim C4: for every point and every non-empty polygon, containment holds
iff the point is in the outer ring and in none of the hole rings; for the
10x10 square with the [(4,4),(6,4),(6,6),(4,6)] hole, (5,5) and (4,4) are
outside the polygon and (1,1) is inside. -/
theorem C4_polygon_hole_rule :
    (∀ (point : Point) (outer : GeoRing) (holes : List GeoRing),
      point_in_polygon point (outer :: holes) = true ↔
        (point_in_ring point outer = true ∧
         ∀ hole ∈ holes, point_in_ring point hole = false)) ∧
    point_in_polygon (5, 5)
      [[(0,0),(10,0),(10,10),(0,10)], [(4,4),(6,4),(6,6),(4,6)]] = false ∧
    point_in_polygon (4, 4)
      [[(0,0),(10,0),(10,10),(0,10)], [(4,4),(6,4),(6,6),(4,6)]] = false ∧
    point_in_polygon (1, 1)
      [[(0,0),(10,0),(10,10),(0,10)], [(4,4),(6,4),(6,6),(4,6)]] = true := by
  refine ⟨?_, ?_, ?_, ?_⟩
  · intro point outer holes
    cases h : point_in_ring point outer with
    | false => simp [point_in_polygon, h]
    | true =>
      cases h2 : holes.any (fun hole => point_in_ring point hole) with
      | false =>
        simp only [point_in_polygon, h, h2, Bool.not_true, Bool.false_eq_true,
          if_false, if_true]
        simp only [List.any_eq_false, Bool.not_eq_true] at h2
        simp only [true_iff, true_and]
        exact h2
      | true =>
        simp only [point_in_polygon, h, h2, Bool.not_true, Bool.false_eq_true,
          if_false, if_true]
        simp only [List.any_eq_true] at h2
        obtain ⟨hole, hmem, hin⟩ := h2
        simp only [false_iff, not_and, not_forall]
        intro _
        exact ⟨hole, hmem, by simp [hin]⟩
  · norm_num [point_in_polygon, point_in_ring, castLoop, ringEdges, point_on_segment]
  · norm_num [point_in_polygon, point_in_ring, castLoop, ringEdges, point_on_segment]
  · norm_num [point_in_polygon, point_in_ring, castLoop, ringEdges, point_on_segment]

/-- Claim C1 (the code at the failing input): the point (1/2, -1e-10) is
reported inside the triangle polygon [(0,0),(1,0),(0,1)] by
`point_in_polygon` (the on-segment tolerance accepts it), yet its y lies
strictly below the polygon's bounding-box minimum 0, so the bounding-box
pruning in lookup rejects the point and `lookup` misses the feature. -/
theorem C1_bbox_prune_rejects_accepted_point :
    point_in_polygon (1/2, -(1/10000000000)) [[(0,0),(1,0),(0,1)]] = true ∧
    polygon_bbox [[[(0,0),(1,0),(0,1)]]] = (.fin 0, .fin 0, .fin 1, .fin 1) ∧
    ¬ ((0 : ℚ) ≤ -(1/10000000000)) ∧
    lookupLoop (1/2, -(1/10000000000))
      [⟨(.fin 0, .fin 0, .fin 1, .fin 1), [[[(0,0),(1,0),(0,1)]]], [("name", "A")]⟩]
      = none := by
  refine ⟨?_, ?_, by norm_num, ?_⟩
  · norm_num [point_in_polygon, point_in_ring, castLoop, ringEdges, point_on_segment,
      abs_le, lt_abs]
  · norm_num [polygon_bbox, bboxStep, XQ.min, XQ.max, XQ.blt]
  · norm_num [lookupLoop, XQ.qlt, XQ.qgt, XQ.blt]

/-- A record whose geometry extracts to no polygons is skipped: the
constructor loop's `continue`. -/
theorem buildFeatures_cons_empty (feature : FeatureRec) (rest : List FeatureRec)
    (h : extract_polygons (effGeometry feature) = some []) :
    buildFeatures (feature :: rest) = buildFeatures rest := by
  simp [buildFeatures, h]

/-- A record whose geometry extraction raises aborts the whole construction. -/
theorem buildFeatures_cons_error (feature : FeatureRec) (rest : List FeatureRec)
    (h : extract_polygons (effGeometry feature) = none) :
    buildFeatures (feature :: rest) = none := by
  simp [buildFeatures, h]

/-- One raising entry aborts the conversion of its whole ring. -/
theorem convEntries_eq_none_of_mem {entries : List JVal} {e : JVal}
    (hmem : e ∈ entries) (hnone : convEntry e = none) :
    convEntries entries = none := by
  induction entries with
  | nil => cases hmem
  | cons a rest ih =>
    rcases List.mem_cons.mp hmem with h | h
    · subst h; simp [convEntries, hnone]
    · cases ha : convEntry a <;> simp [convEntries, ha, ih h]

/-- One raising ring aborts the conversion of its whole polygon. -/
theorem convRings_eq_none_of_mem {rings : List JVal} {r : JVal}
    (hmem : r ∈ rings) (hnone : convRing r = none) :
    convRings rings = none := by
  induction rings with
  | nil => cases hmem
  | cons a rest ih =>
    rcases List.mem_cons.mp hmem with h | h
    · subst h; simp [convRings, hnone]
    · cases ha : convRing a <;> simp [convRings, ha, ih h]

/-- One raising polygon aborts the conversion of a whole MultiPolygon. -/
theorem convPolygons_eq_none_of_mem {polys : List JVal} {p : JVal}
    (hmem : p ∈ polys) (hnone : convPolygon p = none) :
    convPolygons polys = none := by
  induction polys with
  | nil => cases hmem
  | cons a rest ih =>
    rcases List.mem_cons.mp hmem with h | h
    · subst h; simp [convPolygons, hnone]
    · cases ha : convPolygon a <;> simp [convPolygons, ha, ih h]

/-- A two-component entry one of whose components `float` rejects raises. -/
theorem convEntry_eq_none_of_bad {a b : JVal}
    (h : pyFloat a = none ∨ pyFloat b = none) :
    convEntry (.arr [a, b]) = none := by
  rcases h with h | h
  · cases hb : pyFloat b <;> simp [convEntry, h, hb]
  · cases ha : pyFloat a <;> simp [convEntry, h, ha]

/-- Claim C7: a geometry of a supported type containing a coordinate
component that `float` cannot convert makes `extract_polygons` raise, and the
error propagates through index construction instead of being swallowed. -/
theorem C7_conversion_error_propagates :
    (∀ (g : Geometry) (rings entries : List JVal) (a b : JVal)
        (props : Option Props) (rest : List FeatureRec),
        g.type = some "Polygon" → g.coordinates = some (.arr rings) →
        JVal.arr entries ∈ rings → JVal.arr [a, b] ∈ entries →
        (pyFloat a = none ∨ pyFloat b = none) →
        extract_polygons g = none ∧
        buildFeatures (⟨some g, props⟩ :: rest) = none) ∧
    (∀ (g : Geometry) (polys rings entries : List JVal) (a b : JVal)
        (props : Option Props) (rest : List FeatureRec),
        g.type = some "MultiPolygon" → g.coordinates = some (.arr polys) →
        JVal.arr rings ∈ polys → JVal.arr entries ∈ rings →
        JVal.arr [a, b] ∈ entries →
        (pyFloat a = none ∨ pyFloat b = none) →
        extract_polygons g = none ∧
        buildFeatures (⟨some g, props⟩ :: rest) = none) := by
  constructor
  · intro g rings entries a b props rest hty hco hr he hbad
    have hex : extract_polygons g = none := by
      obtain ⟨ty, co⟩ := g
      simp only at hty hco
      subst hty; subst hco
      have hring : convRing (.arr entries) = none := by
        simpa [convRing] using convEntries_eq_none_of_mem he (convEntry_eq_none_of_bad hbad)
      simp [extract_polygons, convPolygon, convRings_eq_none_of_mem hr hring]
    exact ⟨hex, buildFeatures_cons_error _ _ (by simpa [effGeometry] using hex)⟩
  · intro g polys rings entries a b props rest hty hco hp hr he hbad
    have hex : extract_polygons g = none := by
      obtain ⟨ty, co⟩ := g
      simp only at hty hco
      subst hty; subst hco
      have hring : convRing (.arr entries) = none := by
        simpa [convRing] using convEntries_eq_none_of_mem he (convEntry_eq_none_of_bad hbad)
      have hpoly : convPolygon (.arr rings) = none := by
        simpa [convPolygon] using convRings_eq_none_of_mem hr hring
      simp [extract_polygons, convPolygons_eq_none_of_mem hp hpoly]
    exact ⟨hex, buildFeatures_cons_error _ _ (by simpa [effGeometry] using hex)⟩

/-- Claim C7, instantiated: a Polygon geometry whose single coordinate entry
holds an unconvertible component raises at extraction, and building an index
from that one record raises too. -/
theorem C7_witness :
    extract_polygons
      ⟨some "Polygon", some (.arr [.arr [.arr [.other, .num 0]]])⟩ = none ∧
    buildFeatures
      [⟨some ⟨some "Polygon", some (.arr [.arr [.arr [.other, .num 0]]])⟩, none⟩]
      = none :=
  C7_conversion_error_propagates.1 _ [.arr [.arr [.other, .num 0]]]
    [.arr [.other, .num 0]] .other (.num 0) none [] rfl rfl
    (List.mem_singleton.mpr rfl) (List.mem_singleton.mpr rfl) (Or.inl rfl)

/-- Claim C6: a geometry with a missing type, a type other than Polygon or
MultiPolygon, or missing coordinates extracts to the empty list without
raising, and index construction silently skips such a record. -/
theorem C6_unsupported_geometry_skipped (g : Geometry)
    (h : g.type = none ∨ g.coordinates = none ∨
      (∃ t, g.type = some t ∧ t ≠ "Polygon" ∧ t ≠ "MultiPolygon")) :
    extract_polygons g = some [] ∧
    ∀ (props : Option Props) (rest : List FeatureRec),
      buildFeatures (⟨some g, props⟩ :: rest) = buildFeatures rest := by
  have hex : extract_polygons g = some [] := by
    obtain ⟨ty, co⟩ := g
    simp only at h
    rcases h with h | h | ⟨t, ht, h1, h2⟩
    · subst h; rfl
    · subst h; cases ty <;> rfl
    · subst ht
      cases co with
      | none => rfl
      | some c =>
        by_cases he : t = "" <;> simp [extract_polygons, he, h1, h2]
  exact ⟨hex, fun props rest =>
    buildFeatures_cons_empty _ _ (by simpa [effGeometry] using hex)⟩

/-- Claim C6, instantiated at a Point-typed geometry record. -/
theorem C6_witness :
    extract_polygons ⟨some "Point", none⟩ = some [] ∧
    ∀ (props : Option Props) (rest : List FeatureRec),
      buildFeatures (⟨some ⟨some "Point", none⟩, props⟩ :: rest) =
        buildFeatures rest :=
  C6_unsupported_geometry_skipped ⟨some "Point", none⟩ (Or.inr (Or.inl rfl))

/-- Claim C2, refuted at a concrete input: a Polygon geometry whose only
coordinate entry is the three-component [1, 2, 3] makes `extract_polygons`
raise (the two-target unpacking fails), rather than succeed on the first two
components as the claim states. -/
theorem C2_counterexample :
    extract_polygons
      ⟨some "Polygon", some (.arr [.arr [.arr [.num 1, .num 2, .num 3]]])⟩
      = none := by
  rfl

/-- An entry with more than two components cannot be unpacked into the two
targets of `for x, y in ring`, so it raises. -/
theorem convEntry_eq_none_of_long {l : List JVal} (h : 2 < l.length) :
    convEntry (.arr l) = none := by
  rcases l with _ | ⟨a, l⟩
  · simp at h
  rcases l with _ | ⟨b, l⟩
  · simp at h
  rcases l with _ | ⟨c, l⟩
  · simp at h
  rfl

/-- Claim C2 as amended: for both Polygon and MultiPolygon geometry records,
a coordinate entry with more than two components is not truncated to its
first two; it makes `extract_polygons` raise. -/
theorem C2_extra_components_fail :
    (∀ (g : Geometry) (rings entries l : List JVal),
        g.type = some "Polygon" → g.coordinates = some (.arr rings) →
        JVal.arr entries ∈ rings → JVal.arr l ∈ entries →
        2 < l.length →
        extract_polygons g = none) ∧
    (∀ (g : Geometry) (polys rings entries l : List JVal),
        g.type = some "MultiPolygon" → g.coordinates = some (.arr polys) →
        JVal.arr rings ∈ polys → JVal.arr entries ∈ rings →
        JVal.arr l ∈ entries → 2 < l.length →
        extract_polygons g = none) := by
  constructor
  · intro g rings entries l h1 h2 h3 h4 h5
    obtain ⟨ty, co⟩ := g
    simp only at h1 h2
    subst h1; subst h2
    have hring : convRing (.arr entries) = none := by
      simpa [convRing] using
        convEntries_eq_none_of_mem h4 (convEntry_eq_none_of_long h5)
    simp [extract_polygons, convPolygon, convRings_eq_none_of_mem h3 hring]
  · intro g polys rings entries l h1 h2 h3 h4 h5 h6
    obtain ⟨ty, co⟩ := g
    simp only at h1 h2
    subst h1; subst h2
    have hring : convRing (.arr entries) = none := by
      simpa [convRing] using
        convEntries_eq_none_of_mem h5 (convEntry_eq_none_of_long h6)
    have hpoly : convPolygon (.arr rings) = none := by
      simpa [convPolygon] using convRings_eq_none_of_mem h4 hring
    simp [extract_polygons, convPolygons_eq_none_of_mem h3 hpoly]

/-- Claim C2 as amended, instantiated at a four-component entry for both a
Polygon and a MultiPolygon record. -/
theorem C2_witness :
    extract_polygons
      ⟨some "Polygon", some (.arr [.arr [.arr [.num 0, .num 0, .num 0, .num 0]]])⟩
      = none ∧
    extract_polygons
      ⟨some "MultiPolygon",
        some (.arr [.arr [.arr [.arr [.num 0, .num 0, .num 0, .num 0]]]])⟩
      = none :=
  ⟨C2_extra_components_fail.1 _ [.arr [.arr [.num 0, .num 0, .num 0, .num 0]]]
      [.arr [.num 0, .num 0, .num 0, .num 0]] [.num 0, .num 0, .num 0, .num 0]
      rfl rfl (List.mem_singleton.mpr rfl) (List.mem_singleton.mpr rfl)
      (by norm_num),
    C2_extra_components_fail.2 _
      [.arr [.arr [.arr [.num 0, .num 0, .num 0, .num 0]]]]
      [.arr [.arr [.num 0, .num 0, .num 0, .num 0]]]
      [.arr [.num 0, .num 0, .num 0, .num 0]] [.num 0, .num 0, .num 0, .num 0]
      rfl rfl (List.mem_singleton.mpr rfl) (List.mem_singleton.mpr rfl)
      (List.mem_singleton.mpr rfl) (by norm_num)⟩

/-- Claim C8 as amended: a feature record whose geometry extracts to zero
polygons never aborts construction, wherever it sits in the input; it is
skipped and the rest of the index is built exactly as without it.  (A record
whose extraction raises, by contrast, aborts the whole construction: see the
fail-fast behaviour of claim C7.) -/
theorem C8_empty_extraction_skipped (pre : List FeatureRec) (feature : FeatureRec)
    (post : List FeatureRec)
    (h : extract_polygons (effGeometry feature) = some []) :
    buildFeatures (pre ++ feature :: post) = buildFeatures (pre ++ post) := by
  induction pre with
  | nil => simpa using buildFeatures_cons_empty feature post h
  | cons r rs ih =>
    simp only [List.cons_append, buildFeatures, List.append_eq]
    rw [ih]

/-- Claim C8 as amended, instantiated: a geometry-less record ahead of a
well-formed square feature leaves that feature's index untouched. -/
theorem C8_witness :
    buildFeatures
      [⟨some ⟨some "Point", none⟩, none⟩,
       ⟨some ⟨some "Polygon", some (.arr [.arr [.arr [.num 0, .num 0],
          .arr [.num 2, .num 0], .arr [.num 2, .num 2], .arr [.num 0, .num 2]]])⟩,
        some [("name", "good")]⟩] =
    buildFeatures
      [⟨some ⟨some "Polygon", some (.arr [.arr [.arr [.num 0, .num 0],
          .arr [.num 2, .num 0], .arr [.num 2, .num 2], .arr [.num 0, .num 2]]])⟩,
        some [("name", "good")]⟩] :=
  C8_empty_extraction_skipped [] ⟨some ⟨some "Point", none⟩, none⟩
    [⟨some ⟨some "Polygon", some (.arr [.arr [.arr [.num 0, .num 0],
        .arr [.num 2, .num 0], .arr [.num 2, .num 2], .arr [.num 0, .num 2]]])⟩,
      some [("name", "good")]⟩] rfl

/-- Claim C8, refuted at a concrete input: one record with an unconvertible
coordinate aborts construction of the whole index, losing the well-formed
square feature behind it — even though that feature alone builds fine. -/
theorem C8_counterexample :
    buildFeatures
      [⟨some ⟨some "Polygon", some (.arr [.arr [.arr [.other, .num 0]]])⟩, none⟩,
       ⟨some ⟨some "Polygon", some (.arr [.arr [.arr [.num 0, .num 0],
          .arr [.num 2, .num 0], .arr [.num 2, .num 2], .arr [.num 0, .num 2]]])⟩,
        some [("name", "good")]⟩] = none ∧
    buildFeatures
      [⟨some ⟨some "Polygon", some (.arr [.arr [.arr [.num 0, .num 0],
          .arr [.num 2, .num 0], .arr [.num 2, .num 2], .arr [.num 0, .num 2]]])⟩,
        some [("name", "good")]⟩] =
      some [⟨(.fin 0, .fin 0, .fin 2, .fin 2), [[[(0,0),(2,0),(2,2),(0,2)]]],
        [("name", "good")]⟩] := by
  exact ⟨rfl, rfl⟩

/-- Python `min` on two finite values picks the smaller (the first on ties). -/
theorem XQ.min_fin (a x : ℚ) :
    XQ.min (.fin a) (.fin x) = .fin (if x < a then x else a) := by
  by_cases h : x < a <;> simp [XQ.min, XQ.blt, h]

/-- Python `max` on two finite values picks the larger (the first on ties). -/
theorem XQ.max_fin (a x : ℚ) :
    XQ.max (.fin a) (.fin x) = .fin (if a < x then x else a) := by
  by_cases h : a < x <;> simp [XQ.max, XQ.blt, h]

/-- The nested loops of `polygon_bbox` are one fold over all points. -/
theorem polygon_bbox_eq_foldl (polygons : List Polygon) :
    polygon_bbox polygons =
      polygons.flatten.flatten.foldl bboxStep
        (.posInf, .posInf, .negInf, .negInf) := by
  rw [List.foldl_flatten, List.foldl_flatten]
  rfl

/-- Once the running bounds are finite and ordered, they stay finite and
ordered through any further points. -/
theorem foldl_bboxStep_fin (pts : List Point) :
    ∀ a b c d : ℚ, a ≤ c → b ≤ d →
    ∃ a2 b2 c2 d2 : ℚ,
      pts.foldl bboxStep (.fin a, .fin b, .fin c, .fin d) =
        (.fin a2, .fin b2, .fin c2, .fin d2) ∧ a2 ≤ c2 ∧ b2 ≤ d2 := by
  induction pts with
  | nil =>
    intro a b c d hac hbd
    exact ⟨a, b, c, d, rfl, hac, hbd⟩
  | cons p rest ih =>
    intro a b c d hac hbd
    simp only [List.foldl_cons, bboxStep, XQ.min_fin, XQ.max_fin]
    exact ih _ _ _ _ (by split_ifs <;> linarith) (by split_ifs <;> linarith)

/-- Claim C9: with zero input points `polygon_bbox` returns the degenerate
box (+inf, +inf, -inf, -inf); a feature carrying that box is skipped by
lookup for every query point; with at least one input point the box is
finite with min <= max on each axis. -/
theorem C9_bbox_degenerate_and_ordered :
    (∀ polygons : List Polygon, polygons.flatten.flatten = [] →
      polygon_bbox polygons = (.posInf, .posInf, .negInf, .negInf)) ∧
    (∀ (feature : GeoFeature) (rest : List GeoFeature) (point : Point),
      feature.bbox = (.posInf, .posInf, .negInf, .negInf) →
      lookupLoop point (feature :: rest) = lookupLoop point rest) ∧
    (∀ polygons : List Polygon, polygons.flatten.flatten ≠ [] →
      ∃ a b c d : ℚ,
        polygon_bbox polygons = (.fin a, .fin b, .fin c, .fin d) ∧
        a ≤ c ∧ b ≤ d) := by
  refine ⟨?_, ?_, ?_⟩
  · intro polygons h
    rw [polygon_bbox_eq_foldl, h]
    rfl
  · intro feature rest point h
    simp [lookupLoop, h, XQ.qlt, XQ.blt]
  · intro polygons h
    rw [polygon_bbox_eq_foldl]
    rcases hp : polygons.flatten.flatten with _ | ⟨p, pts⟩
    · exact absurd hp h
    · rw [List.foldl_cons]
      have hstep : bboxStep (.posInf, .posInf, .negInf, .negInf) p =
          (.fin p.1, .fin p.2, .fin p.1, .fin p.2) := rfl
      rw [hstep]
      exact foldl_bboxStep_fin pts p.1 p.2 p.1 p.2 le_rfl le_rfl

/-- Claim C9, instantiated at a single one-point ring. -/
theorem C9_witness :
    ∃ a b c d : ℚ,
      polygon_bbox [[[((1:ℚ), (2:ℚ))]]] = (.fin a, .fin b, .fin c, .fin d) ∧
      a ≤ c ∧ b ≤ d :=
  C9_bbox_degenerate_and_ordered.2.2 [[[(1, 2)]]] (by simp)

/-- Claim C10: a Polygon geometry with an empty coordinates array extracts to
one polygon with zero rings, so the record survives index construction; yet
its bounding box is the degenerate one and lookup never returns its
attributes for any query point. -/
theorem C10_empty_coordinates_polygon :
    extract_polygons ⟨some "Polygon", some (.arr [])⟩ = some [[]] ∧
    buildFeatures
      [⟨some ⟨some "Polygon", some (.arr [])⟩, some [("name", "empty")]⟩] =
      some [⟨(.posInf, .posInf, .negInf, .negInf), [[]], [("name", "empty")]⟩] ∧
    ∀ point : Point,
      lookupLoop point
        [⟨(.posInf, .posInf, .negInf, .negInf), [[]], [("name", "empty")]⟩] =
        none := by
  refine ⟨rfl, rfl, fun point => ?_⟩
  simp [lookupLoop, XQ.qlt, XQ.blt]

/-- Claim C3 as amended: lookup returns the attributes of the first feature,
in insertion order, that passes the bounding-box test and whose polygons
contain the point (`featureMatches`) — not of the first feature whose
polygons alone contain the point, since a feature whose box rejects the
point is skipped without a containment test. -/
theorem C3_lookup_first_match (features : List GeoFeature) (point : Point) :
    lookupLoop point features =
      (features.find? (featureMatches point)).map GeoFeature.properties := by
  induction features with
  | nil => rfl
  | cons f rest ih =>
    simp only [lookupLoop]
    by_cases hbox : (XQ.qlt point.1 f.bbox.1 || XQ.qgt point.1 f.bbox.2.2.1 ||
        XQ.qlt point.2 f.bbox.2.1 || XQ.qgt point.2 f.bbox.2.2.2) = true
    · rw [if_pos hbox, ih, List.find?_cons_of_neg]
      simp [featureMatches, hbox]
    · rw [if_neg hbox]
      by_cases hany :
          (f.polygons.any (fun polygon => point_in_polygon point polygon)) = true
      · rw [if_pos hany, List.find?_cons_of_pos]
        · rfl
        · simp only [featureMatches, Bool.and_eq_true, Bool.not_eq_true']
          exact ⟨by simpa using hbox, hany⟩
      · rw [if_neg hany, ih, List.find?_cons_of_neg]
        simp [featureMatches, hany]

/-- Claim C3, refuted at a concrete input: the point (1/2, -1e-10) is
contained (per `point_in_polygon`) in the geometry of both surviving
features — triangle A first, big square B second — yet lookup returns B's
attributes, because A's bounding box rejects the point before A's
containment test runs. -/
theorem C3_counterexample :
    buildFeatures
      [⟨some ⟨some "Polygon", some (.arr [.arr [.arr [.num 0, .num 0],
          .arr [.num 1, .num 0], .arr [.num 0, .num 1]]])⟩, some [("name", "A")]⟩,
       ⟨some ⟨some "Polygon", some (.arr [.arr [.arr [.num (-1), .num (-1)],
          .arr [.num 2, .num (-1)], .arr [.num 2, .num 2],
          .arr [.num (-1), .num 2]]])⟩, some [("name", "B")]⟩] =
      some [⟨(.fin 0, .fin 0, .fin 1, .fin 1), [[[(0,0),(1,0),(0,1)]]],
          [("name", "A")]⟩,
        ⟨(.fin (-1), .fin (-1), .fin 2, .fin 2),
          [[[(-1,-1),(2,-1),(2,2),(-1,2)]]], [("name", "B")]⟩] ∧
    point_in_polygon (1/2, -(1/10000000000)) [[(0,0),(1,0),(0,1)]] = true ∧
    point_in_polygon (1/2, -(1/10000000000)) [[(-1,-1),(2,-1),(2,2),(-1,2)]]
      = true ∧
    lookupLoop (1/2, -(1/10000000000))
      [⟨(.fin 0, .fin 0, .fin 1, .fin 1), [[[(0,0),(1,0),(0,1)]]],
          [("name", "A")]⟩,
        ⟨(.fin (-1), .fin (-1), .fin 2, .fin 2),
          [[[(-1,-1),(2,-1),(2,2),(-1,2)]]], [("name", "B")]⟩] =
      some [("name", "B")] := by
  refine ⟨rfl, ?_, ?_, ?_⟩
  · norm_num [point_in_polygon, point_in_ring, castLoop, ringEdges,
      point_on_segment, abs_le, lt_abs]
  · norm_num [point_in_polygon, point_in_ring, castLoop, ringEdges,
      point_on_segment, abs_le, lt_abs]
  · norm_num [lookupLoop, XQ.qlt, XQ.qgt, XQ.blt, point_in_polygon,
      point_in_ring, castLoop, ringEdges, point_on_segment, abs_le, lt_abs]
